import Mathlib

/-!
Verification model of the lockfs package (absfs/lockfs).

The package wraps three absfs filesystem interfaces (Filer, FileSystem,
SymlinkFileSystem) and file handles (absfs.File) with hierarchical
sync.RWMutex locking.  Source files: lockfile.go (the File handle wrapper)
and the wrapper file containing Filer, FileSystem and SymlinkFileSystem.

The embedding has two layers.

Layer 1 (lock-event traces): each exported method of the four wrapper
types is a constructor of the enumeration `Op`; `trace` maps each method
to the exact sequence of lock acquisitions/releases, the delegated call,
and (for open-type calls) construction of the handle wrapper, in the
order the Go code performs them.  Go `defer` statements run in LIFO
order at return, on every exit path, so in every method the releases
appear in reverse acquisition order at the end of the trace.

Layer 2 (results): the data flow of the wrapper methods, with the
wrapped implementation abstracted as an explicit state-passing function
and Go heap allocation of each new `&File{...}` modelled by an
allocation counter supplying a fresh identity for the handle's own
RWMutex.
-/

namespace Lockfs

/-- The two lock levels of the hierarchy: the wrapper's filesystem-level
RWMutex (`Filer.m` / `FileSystem.m` / `SymlinkFileSystem.m`, reached from a
handle through the `locker` back-reference `File.parent`), and the
per-handle RWMutex `File.m`. -/
inductive Level where
  | fsLock
  | fileLock
deriving DecidableEq

/-- Lock mode of a sync.RWMutex operation: `shared` is RLock/RUnlock,
`excl` is Lock/Unlock. -/
inductive Mode where
  | shared
  | excl
deriving DecidableEq

/-- One step performed by a wrapper method: acquiring or releasing a lock
at a level in a mode, the delegated call into the wrapped implementation,
or the construction of a File handle wrapper by `wrapFile`. -/
inductive Event where
  | acq : Level → Mode → Event
  | rel : Level → Mode → Event
  | delegate : Event
  | mkHandle : Event
deriving DecidableEq

/-- Every exported method of the four wrapper types of the package:
`Filer` (filer prefix below), `FileSystem` (fs), `SymlinkFileSystem`
(sfs) and the handle wrapper `File` (file).  The factory functions
NewFiler/NewFS/NewSymlinkFS and the unexported locker methods perform no
delegated call and take no lock, and are not operations on a wrapper. -/
inductive Op where
  | filerOpenFile
  | filerMkdir
  | filerRemove
  | filerRename
  | filerStat
  | filerChmod
  | filerChtimes
  | filerChown
  | filerReadDir
  | filerReadFile
  | filerSub
  | fsOpenFile
  | fsMkdir
  | fsRemove
  | fsRename
  | fsStat
  | fsChmod
  | fsChtimes
  | fsChown
  | fsChdir
  | fsGetwd
  | fsTempDir
  | fsOpen
  | fsCreate
  | fsMkdirAll
  | fsRemoveAll
  | fsTruncate
  | fsReadDir
  | fsReadFile
  | fsSub
  | sfsOpenFile
  | sfsMkdir
  | sfsRemove
  | sfsRename
  | sfsStat
  | sfsChmod
  | sfsChtimes
  | sfsChown
  | sfsChdir
  | sfsGetwd
  | sfsTempDir
  | sfsOpen
  | sfsCreate
  | sfsMkdirAll
  | sfsRemoveAll
  | sfsTruncate
  | sfsReadDir
  | sfsReadFile
  | sfsSub
  | sfsLstat
  | sfsLchown
  | sfsReadlink
  | sfsSymlink
  | fileName
  | fileRead
  | fileReadAt
  | fileWrite
  | fileWriteAt
  | fileClose
  | fileSeek
  | fileStat
  | fileSync
  | fileReaddir
  | fileReaddirnames
  | fileTruncate
  | fileWriteString
  | fileReadDir
deriving DecidableEq, Fintype

/-- Trace of a path-level method of the shape
`m.RLock(); defer m.RUnlock(); return fs.Call(...)`. -/
def sharedPathTrace : List Event :=
  [.acq .fsLock .shared, .delegate, .rel .fsLock .shared]

/-- Trace of a path-level method of the shape
`m.Lock(); defer m.Unlock(); return fs.Call(...)`. -/
def exclPathTrace : List Event :=
  [.acq .fsLock .excl, .delegate, .rel .fsLock .excl]

/-- Trace of an open-type method of the shape
`m.Lock-or-RLock(); defer unlock; file, err := fs.Call(...);
return wrapFile(f, file, err)`: the lock is taken in mode `m`, the call
is delegated, `wrapFile` constructs the handle wrapper exactly when the
delegated call succeeded (`ok`), and the deferred unlock runs last. -/
def openTrace (m : Mode) (ok : Bool) : List Event :=
  [.acq .fsLock m, .delegate] ++ (if ok then [.mkHandle] else []) ++ [.rel .fsLock m]

/-- Trace of a handle-level method of the shape
`parent.rlock(); defer parent.runlock(); m.Lock-or-RLock(); defer unlock;
return f.Call(...)`: the parent filesystem lock is taken shared, the
handle's own lock in mode `m`, and the two deferred unlocks run in LIFO
order (handle first, then parent). -/
def handleTrace (m : Mode) : List Event :=
  [.acq .fsLock .shared, .acq .fileLock m, .delegate, .rel .fileLock m,
   .rel .fsLock .shared]

/-- Trace of `File.Close`: `m.Lock(); defer m.Unlock(); return f.f.Close()`;
no parent lock is taken. -/
def closeTrace : List Event :=
  [.acq .fileLock .excl, .delegate, .rel .fileLock .excl]

/-- Trace of a method that delegates without taking any lock
(`FileSystem.TempDir`, `SymlinkFileSystem.TempDir`, `File.Name`). -/
def noLockTrace : List Event :=
  [.delegate]

/-- The exact sequence of lock events and delegation performed by each
wrapper method, read off the Go source line by line.  `ok` tells whether
the delegated call succeeds; it only affects open-type methods, where
`wrapFile` constructs the handle wrapper only on success. -/
def trace : Op → Bool → List Event
  | .filerOpenFile, ok => openTrace .excl ok
  | .filerMkdir, _ => exclPathTrace
  | .filerRemove, _ => exclPathTrace
  | .filerRename, _ => exclPathTrace
  | .filerStat, _ => sharedPathTrace
  | .filerChmod, _ => exclPathTrace
  | .filerChtimes, _ => exclPathTrace
  | .filerChown, _ => exclPathTrace
  | .filerReadDir, _ => sharedPathTrace
  | .filerReadFile, _ => sharedPathTrace
  | .filerSub, _ => sharedPathTrace
  | .fsOpenFile, ok => openTrace .excl ok
  | .fsMkdir, _ => exclPathTrace
  | .fsRemove, _ => exclPathTrace
  | .fsRename, _ => exclPathTrace
  | .fsStat, _ => sharedPathTrace
  | .fsChmod, _ => exclPathTrace
  | .fsChtimes, _ => exclPathTrace
  | .fsChown, _ => exclPathTrace
  | .fsChdir, _ => exclPathTrace
  | .fsGetwd, _ => sharedPathTrace
  | .fsTempDir, _ => noLockTrace
  | .fsOpen, ok => openTrace .shared ok
  | .fsCreate, ok => openTrace .excl ok
  | .fsMkdirAll, _ => exclPathTrace
  | .fsRemoveAll, _ => exclPathTrace
  | .fsTruncate, _ => exclPathTrace
  | .fsReadDir, _ => sharedPathTrace
  | .fsReadFile, _ => sharedPathTrace
  | .fsSub, _ => sharedPathTrace
  | .sfsOpenFile, ok => openTrace .excl ok
  | .sfsMkdir, _ => exclPathTrace
  | .sfsRemove, _ => exclPathTrace
  | .sfsRename, _ => exclPathTrace
  | .sfsStat, _ => sharedPathTrace
  | .sfsChmod, _ => exclPathTrace
  | .sfsChtimes, _ => exclPathTrace
  | .sfsChown, _ => exclPathTrace
  | .sfsChdir, _ => exclPathTrace
  | .sfsGetwd, _ => sharedPathTrace
  | .sfsTempDir, _ => noLockTrace
  | .sfsOpen, ok => openTrace .shared ok
  | .sfsCreate, ok => openTrace .excl ok
  | .sfsMkdirAll, _ => exclPathTrace
  | .sfsRemoveAll, _ => exclPathTrace
  | .sfsTruncate, _ => exclPathTrace
  | .sfsReadDir, _ => sharedPathTrace
  | .sfsReadFile, _ => sharedPathTrace
  | .sfsSub, _ => sharedPathTrace
  | .sfsLstat, _ => sharedPathTrace
  | .sfsLchown, _ => exclPathTrace
  | .sfsReadlink, _ => sharedPathTrace
  | .sfsSymlink, _ => exclPathTrace
  | .fileName, _ => noLockTrace
  | .fileRead, _ => handleTrace .excl
  | .fileReadAt, _ => handleTrace .shared
  | .fileWrite, _ => handleTrace .excl
  | .fileWriteAt, _ => handleTrace .excl
  | .fileClose, _ => closeTrace
  | .fileSeek, _ => handleTrace .excl
  | .fileStat, _ => handleTrace .shared
  | .fileSync, _ => handleTrace .excl
  | .fileReaddir, _ => handleTrace .excl
  | .fileReaddirnames, _ => handleTrace .excl
  | .fileTruncate, _ => handleTrace .excl
  | .fileWriteString, _ => handleTrace .excl
  | .fileReadDir, _ => handleTrace .excl

/-- Run a trace against a stack of currently held locks.  An acquisition
pushes; a release must match the most recently acquired still-held lock
(level and mode) and pops it, otherwise the run fails.  Returns the locks
still held at the end of the trace. -/
def runLocks : List (Level × Mode) → List Event → Option (List (Level × Mode))
  | held, [] => some held
  | held, .acq l m :: es => runLocks ((l, m) :: held) es
  | [], .rel _ _ :: _ => none
  | (lh, mh) :: held, .rel l m :: es =>
      if lh = l ∧ mh = m then runLocks held es else none
  | held, .delegate :: es => runLocks held es
  | held, .mkHandle :: es => runLocks held es

/-- A trace is balanced when, starting from no held locks, every release
matches the most recently acquired still-held lock and no lock remains
held at the end: all acquired locks are released before the method
returns, in reverse acquisition order. -/
def balanced (es : List Event) : Prop :=
  runLocks [] es = some []

instance (es : List Event) : Decidable (balanced es) := by
  unfold balanced
  infer_instance

/-- Checks that no filesystem-level lock acquisition happens after a
handle-level lock acquisition: the parent lock, when taken, is taken
strictly before the handle lock.  `seenFile` records whether a
handle-level acquisition has already occurred. -/
def acqParentFirst : Bool → List Event → Bool
  | _, [] => true
  | seenFile, .acq .fsLock _ :: es => !seenFile && acqParentFirst seenFile es
  | _, .acq .fileLock _ :: es => acqParentFirst true es
  | seenFile, .rel _ _ :: es => acqParentFirst seenFile es
  | seenFile, .delegate :: es => acqParentFirst seenFile es
  | seenFile, .mkHandle :: es => acqParentFirst seenFile es

/-- True when the trace performs at least one delegated call. -/
def hasDelegate (es : List Event) : Bool :=
  es.any fun e => decide (e = Event.delegate)

/-- Checks that every delegated call in the trace runs while no
filesystem-level lock is held, tracking held locks as a stack. -/
def delegatesWithoutFsLock : List (Level × Mode) → List Event → Bool
  | _, [] => true
  | held, .acq l m :: es => delegatesWithoutFsLock ((l, m) :: held) es
  | held, .rel _ _ :: es => delegatesWithoutFsLock held.tail es
  | held, .delegate :: es =>
      (held.all fun p => decide (p.1 ≠ Level.fsLock)) &&
        delegatesWithoutFsLock held es
  | held, .mkHandle :: es => delegatesWithoutFsLock held es

/-!
Layer 2: results.  The wrapped implementation is abstracted as explicit
state-passing functions (Go's mutable receiver state becomes a value of
an abstract type threaded through); a Go pair `(value, err)` becomes
`value × Option ε`.  Heap allocation of each new `&File{...}` (and with
it the fresh zero-value `sync.RWMutex` inside the struct) is modelled by
an allocation counter held in the wrapper, incremented exactly when a
handle wrapper is constructed; `lockId` is the identity of the handle's
own mutex and `parent` the identity of the producing wrapper's lock
capability (the `locker` back-reference). -/

/-- The File handle wrapper of lockfile.go: wrapped file handle `f`, a
per-handle RWMutex identified by `lockId`, and the non-owning `parent`
back-reference to the producing wrapper's lock capability. -/
structure File (φ : Type) where
  f : φ
  lockId : Nat
  parent : Nat
deriving DecidableEq

/-- wrapFile of lockfile.go: `if err != nil { return nil, err };
return &File{f: f, parent: parent}, nil`.  `parentId` is the identity of
the parent wrapper's lock, `alloc` the allocation counter; construction
allocates a fresh per-handle mutex identity and advances the counter. -/
def wrapFile {φ ε : Type} (parentId : Nat) (alloc : Nat) (file : φ)
    (err : Option ε) : Option (File φ) × Option ε × Nat :=
  match err with
  | some e => (none, some e, alloc)
  | none => (some ⟨file, alloc, parentId⟩, none, alloc + 1)

/-- The Filer wrapper: wrapped absfs.Filer instance `fs`, its RWMutex
identified by `fsId`, and the allocation counter modelling the heap. -/
structure Filer (σ : Type) where
  fsId : Nat
  fs : σ
  alloc : Nat
deriving DecidableEq

/-- The FileSystem wrapper: wrapped absfs.FileSystem instance `fs`, its
RWMutex identified by `fsId`, and the allocation counter. -/
structure FileSystem (σ : Type) where
  fsId : Nat
  fs : σ
  alloc : Nat
deriving DecidableEq

/-- The SymlinkFileSystem wrapper: wrapped absfs.SymlinkFileSystem
instance `sfs`, its RWMutex identified by `fsId`, and the allocation
counter. -/
structure SymlinkFileSystem (σ : Type) where
  fsId : Nat
  sfs : σ
  alloc : Nat
deriving DecidableEq

/-- Common body of the open-type methods of Filer
(`file, err := f.fs.Call(...); return wrapFile(f, file, err)`). -/
def Filer.openWith {σ φ ε : Type} (call : σ → σ × φ × Option ε)
    (w : Filer σ) : Filer σ × Option (File φ) × Option ε :=
  match call w.fs with
  | (s, file, err) =>
    match wrapFile w.fsId w.alloc file err with
    | (h, e, alloc) => ({ w with fs := s, alloc := alloc }, h, e)

/-- Common body of the open-type methods Open/Create/OpenFile of
FileSystem (`file, err := f.fs.Call(...); return wrapFile(f, file, err)`). -/
def FileSystem.openWith {σ φ ε : Type} (call : σ → σ × φ × Option ε)
    (w : FileSystem σ) : FileSystem σ × Option (File φ) × Option ε :=
  match call w.fs with
  | (s, file, err) =>
    match wrapFile w.fsId w.alloc file err with
    | (h, e, alloc) => ({ w with fs := s, alloc := alloc }, h, e)

/-- Common body of the open-type methods Open/Create/OpenFile of
SymlinkFileSystem (`file, err := f.sfs.Call(...);
return wrapFile(f, file, err)`). -/
def SymlinkFileSystem.openWith {σ φ ε : Type} (call : σ → σ × φ × Option ε)
    (w : SymlinkFileSystem σ) :
    SymlinkFileSystem σ × Option (File φ) × Option ε :=
  match call w.sfs with
  | (s, file, err) =>
    match wrapFile w.fsId w.alloc file err with
    | (h, e, alloc) => ({ w with sfs := s, alloc := alloc }, h, e)

/-- Filer.OpenFile: delegates OpenFile to the wrapped Filer and wraps the
result (under the exclusive lock recorded in `trace .filerOpenFile`). -/
def Filer.OpenFile {σ φ ε : Type}
    (implOpenFile : σ → String → Int → Nat → σ × φ × Option ε)
    (w : Filer σ) (name : String) (flag : Int) (perm : Nat) :
    Filer σ × Option (File φ) × Option ε :=
  Filer.openWith (fun s => implOpenFile s name flag perm) w

/-- FileSystem.OpenFile: delegates OpenFile to the wrapped FileSystem and
wraps the result. -/
def FileSystem.OpenFile {σ φ ε : Type}
    (implOpenFile : σ → String → Int → Nat → σ × φ × Option ε)
    (w : FileSystem σ) (name : String) (flag : Int) (perm : Nat) :
    FileSystem σ × Option (File φ) × Option ε :=
  FileSystem.openWith (fun s => implOpenFile s name flag perm) w

/-- FileSystem.Open: delegates Open to the wrapped FileSystem and wraps
the result (under the shared lock recorded in `trace .fsOpen`). -/
def FileSystem.Open {σ φ ε : Type}
    (implOpen : σ → String → σ × φ × Option ε)
    (w : FileSystem σ) (name : String) :
    FileSystem σ × Option (File φ) × Option ε :=
  FileSystem.openWith (fun s => implOpen s name) w

/-- FileSystem.Create: delegates Create to the wrapped FileSystem and
wraps the result. -/
def FileSystem.Create {σ φ ε : Type}
    (implCreate : σ → String → σ × φ × Option ε)
    (w : FileSystem σ) (name : String) :
    FileSystem σ × Option (File φ) × Option ε :=
  FileSystem.openWith (fun s => implCreate s name) w

/-- SymlinkFileSystem.Open: delegates Open to the wrapped instance and
wraps the result. -/
def SymlinkFileSystem.Open {σ φ ε : Type}
    (implOpen : σ → String → σ × φ × Option ε)
    (w : SymlinkFileSystem σ) (name : String) :
    SymlinkFileSystem σ × Option (File φ) × Option ε :=
  SymlinkFileSystem.openWith (fun s => implOpen s name) w

/-- SymlinkFileSystem.Create: delegates Create to the wrapped instance
and wraps the result. -/
def SymlinkFileSystem.Create {σ φ ε : Type}
    (implCreate : σ → String → σ × φ × Option ε)
    (w : SymlinkFileSystem σ) (name : String) :
    SymlinkFileSystem σ × Option (File φ) × Option ε :=
  SymlinkFileSystem.openWith (fun s => implCreate s name) w

/-- SymlinkFileSystem.OpenFile: delegates OpenFile to the wrapped
instance and wraps the result. -/
def SymlinkFileSystem.OpenFile {σ φ ε : Type}
    (implOpenFile : σ → String → Int → Nat → σ × φ × Option ε)
    (w : SymlinkFileSystem σ) (name : String) (flag : Int) (perm : Nat) :
    SymlinkFileSystem σ × Option (File φ) × Option ε :=
  SymlinkFileSystem.openWith (fun s => implOpenFile s name flag perm) w

/-- Common body of the read-only path-level methods (Stat, ReadDir,
ReadFile, Getwd, ...): `return f.fs.Call(...)` — the delegated result
pair is returned verbatim. -/
def Filer.readWith {σ ρ : Type} (call : σ → ρ) (w : Filer σ) : ρ :=
  call w.fs

/-- Common body of the mutating path-level methods (Mkdir, Remove,
Rename, Chmod, ...): `return f.fs.Call(...)`, the wrapped instance state
is updated and the error returned verbatim. -/
def Filer.mutateWith {σ ε : Type} (call : σ → σ × Option ε) (w : Filer σ) :
    Filer σ × Option ε :=
  match call w.fs with
  | (s, e) => ({ w with fs := s }, e)

/-- Filer.Stat: `m.RLock(); defer m.RUnlock(); return f.fs.Stat(name)` —
the FileInfo/error pair of the wrapped Filer is returned verbatim. -/
def Filer.Stat {σ ι ε : Type} (implStat : σ → String → ι × Option ε)
    (w : Filer σ) (name : String) : ι × Option ε :=
  Filer.readWith (fun s => implStat s name) w

/-- Filer.Sub: `return absfs.FilerToFS(f.fs, dir)` — the external helper
absfs.FilerToFS (abstracted as `filerToFS`) is applied to the unwrapped
inner instance and dir; no lockfs wrapper is constructed. -/
def Filer.Sub {σ β : Type} (filerToFS : σ → String → β) (w : Filer σ)
    (dir : String) : β :=
  filerToFS w.fs dir

/-- FileSystem.Sub: `return absfs.FilerToFS(f.fs, dir)`. -/
def FileSystem.Sub {σ β : Type} (filerToFS : σ → String → β)
    (w : FileSystem σ) (dir : String) : β :=
  filerToFS w.fs dir

/-- FileSystem.TempDir: `return f.fs.TempDir()` — direct delegation, no
lock (see `trace .fsTempDir`). -/
def FileSystem.TempDir {σ : Type} (implTempDir : σ → String)
    (w : FileSystem σ) : String :=
  implTempDir w.fs

/-- SymlinkFileSystem.TempDir: `return f.sfs.TempDir()` — direct
delegation, no lock (see `trace .sfsTempDir`). -/
def SymlinkFileSystem.TempDir {σ : Type} (implTempDir : σ → String)
    (w : SymlinkFileSystem σ) : String :=
  implTempDir w.sfs

/-- Common body of the handle-level methods of File: delegate to the
wrapped file handle `f.f`, thread its state, return its result verbatim;
the handle's own mutex and parent back-reference are untouched. -/
def File.opWith {φ ρ : Type} (call : φ → φ × ρ) (h : File φ) :
    File φ × ρ :=
  match call h.f with
  | (f2, r) => ({ h with f := f2 }, r)

/-- File.Read: `return f.f.Read(p)` — the (count, error) pair of the
wrapped handle is returned verbatim (under the locks recorded in
`trace .fileRead`). -/
def File.Read {φ π ε : Type} (implRead : φ → π → φ × Nat × Option ε)
    (h : File φ) (p : π) : File φ × Nat × Option ε :=
  File.opWith (fun f => implRead f p) h

/-- Drop-in result fidelity for a plainly delegating method, stated from
the spec: the wrapper returns exactly the result (value and error) that
the wrapped implementation returns for the delegated call. -/
def specVerbatim {ρ : Type} (wrapped impl : ρ) : Prop :=
  wrapped = impl

/-- Drop-in result fidelity for an open-type method, stated from the
spec: the error of the wrapped implementation propagates unchanged, and
the sole difference in the value is that a successfully opened handle
comes back wrapped in a File handle wrapper (no handle on failure). -/
def specOpenFidelity {φ ε : Type} (wrapHandle : φ → File φ)
    (implValue : φ) (implErr : Option ε)
    (res : Option (File φ) × Option ε) : Prop :=
  res.2 = implErr ∧
    res.1 = (match implErr with
      | none => some (wrapHandle implValue)
      | some _ => none)

/-- The handle-level methods that mutate the cursor or content (write,
write-at-offset, truncate, and directory-cursor advance). -/
def handleMutatorOps : List Op :=
  [.fileWrite, .fileWriteAt, .fileTruncate, .fileReaddir,
   .fileReaddirnames, .fileReadDir]

/-- The path-level mutators named by the claim on mutating operations:
Remove, Rename and Truncate on each wrapper that has them. -/
def pathMutatorOps : List Op :=
  [.filerRemove, .filerRename, .fsRemove, .fsRename, .fsTruncate,
   .sfsRemove, .sfsRename, .sfsTruncate]

/-- The handle-level methods that mutate the cursor or the underlying
content according to section 4.2 of the spec: read, write,
write-at-offset, seek, truncate, sync, write-string and directory
iteration. -/
def cursorMutatorOps : List Op :=
  [.fileRead, .fileWrite, .fileWriteAt, .fileSeek, .fileTruncate,
   .fileSync, .fileWriteString, .fileReaddir, .fileReaddirnames,
   .fileReadDir]

/-- The wrapper methods that perform their delegated call while holding
no filesystem-level lock: the two TempDir methods, File.Name and
File.Close. -/
def unlockedDelegateOps : List Op :=
  [.fsTempDir, .sfsTempDir, .fileName, .fileClose]

/-- Claim C1, counterexample: the claim says every open/create-type call,
FileSystem.Open included, acquires the wrapper lock in exclusive mode; but
FileSystem.Open is `m.RLock(); defer m.RUnlock(); file, err := f.fs.Open(name);
return wrapFile(f, file, err)` — its trace contains no exclusive
filesystem-lock acquisition, only a shared one. -/
theorem c1_open_shared_not_excl :
    Event.acq Level.fsLock Mode.excl ∉ trace Op.fsOpen true ∧
      Event.acq Level.fsLock Mode.shared ∈ trace Op.fsOpen true := by
  decide

/-- Claim C1, amended: every open/create-type call acquires the wrapper
lock (exclusive mode for Filer.OpenFile, FileSystem.OpenFile,
FileSystem.Create and the SymlinkFileSystem counterparts; shared mode for
FileSystem.Open and SymlinkFileSystem.Open), delegates, and only on
delegation success constructs the File handle wrapper — storing the
producing wrapper's lock capability in its parent field — before the
lock is released (`openTrace` places `mkHandle` between `delegate` and
the release). -/
theorem c1_open_locking_amended :
    (∀ ok,
      trace Op.filerOpenFile ok = openTrace Mode.excl ok ∧
      trace Op.fsOpenFile ok = openTrace Mode.excl ok ∧
      trace Op.fsCreate ok = openTrace Mode.excl ok ∧
      trace Op.sfsOpenFile ok = openTrace Mode.excl ok ∧
      trace Op.sfsCreate ok = openTrace Mode.excl ok ∧
      trace Op.fsOpen ok = openTrace Mode.shared ok ∧
      trace Op.sfsOpen ok = openTrace Mode.shared ok) ∧
    (∀ (σ φ ε : Type) (call : σ → σ × φ × Option ε) (w : FileSystem σ),
      (FileSystem.openWith call w).2.1 =
        (match (call w.fs).2.2 with
          | none => some ⟨(call w.fs).2.1, w.alloc, w.fsId⟩
          | some _ => none)) := by
  constructor
  · decide
  · intro σ φ ε call w
    rcases hc : call w.fs with ⟨s, file, err⟩
    cases err <;> simp [FileSystem.openWith, wrapFile, hc]

/-- Claim C2, counterexample: the claim says a handle-level write holds
the parent filesystem lock in exclusive mode; but File.Write is
`f.parent.rlock(); defer f.parent.runlock(); f.m.Lock(); defer f.m.Unlock();
return f.f.Write(p)` — its trace holds the filesystem-level lock in
shared mode only, never exclusive. -/
theorem c2_write_parent_shared :
    Event.acq Level.fsLock Mode.excl ∉ trace Op.fileWrite true ∧
      Event.acq Level.fsLock Mode.shared ∈ trace Op.fileWrite true := by
  decide

/-- Claim C2, amended: path-level mutators (Remove, Rename, Truncate on
the wrappers that have them) acquire the filesystem lock in exclusive
mode; handle-level mutators (Write, WriteAt, Truncate and the
directory-cursor advances Readdir, Readdirnames, ReadDir) acquire the
parent filesystem lock in shared — not exclusive — mode and the handle's
own lock in exclusive mode. -/
theorem c2_mutators_locking_amended :
    (∀ ok, (pathMutatorOps.all fun op =>
      decide (trace op ok = exclPathTrace)) = true) ∧
    (∀ ok, (handleMutatorOps.all fun op =>
      decide (trace op ok = handleTrace Mode.excl)) = true) := by
  decide

/-- Claim C3: in every wrapper method, for both delegation outcomes, the
trace is balanced — every release matches the most recently acquired
still-held lock, so locks are released in reverse acquisition order
(handle lock first, then parent lock) and none remains held — and no
filesystem-level acquisition ever follows a handle-level acquisition, so
any method needing both locks takes the parent lock strictly first and
no code path acquires a handle lock before its parent's lock. -/
theorem c3_lock_order_total :
    ∀ (op : Op) (ok : Bool),
      balanced (trace op ok) ∧ acqParentFirst false (trace op ok) = true := by
  decide

/-- Claim C4: every wrapper method returns exactly the value and error of
its delegated call — read-style methods (Filer.Stat and every instance of
readWith) return the delegated pair verbatim; mutating methods return the
delegated error verbatim; File methods (File.Read and every instance of
opWith) return the delegated result verbatim and leave the handle's own
mutex and parent reference untouched; the sole difference is that an
open-type call wraps a successfully opened handle in a File handle
wrapper. -/
theorem c4_drop_in_substitute :
    (∀ (σ ι ε : Type) (implStat : σ → String → ι × Option ε)
      (w : Filer σ) (name : String),
      specVerbatim (Filer.Stat implStat w name) (implStat w.fs name)) ∧
    (∀ (σ ρ : Type) (call : σ → ρ) (w : Filer σ),
      specVerbatim (Filer.readWith call w) (call w.fs)) ∧
    (∀ (σ ε : Type) (call : σ → σ × Option ε) (w : Filer σ),
      specVerbatim (Filer.mutateWith call w).2 (call w.fs).2 ∧
        (Filer.mutateWith call w).1.fs = (call w.fs).1) ∧
    (∀ (φ π ε : Type) (implRead : φ → π → φ × Nat × Option ε)
      (h : File φ) (p : π),
      specVerbatim (File.Read implRead h p).2 (implRead h.f p).2 ∧
        (File.Read implRead h p).1.lockId = h.lockId ∧
        (File.Read implRead h p).1.parent = h.parent) ∧
    (∀ (φ ρ : Type) (call : φ → φ × ρ) (h : File φ),
      specVerbatim (File.opWith call h).2 (call h.f).2) ∧
    (∀ (σ φ ε : Type) (call : σ → σ × φ × Option ε) (w : FileSystem σ),
      specOpenFidelity (fun file => ⟨file, w.alloc, w.fsId⟩)
        (call w.fs).2.1 (call w.fs).2.2 (FileSystem.openWith call w).2) := by
  refine ⟨?_, ?_, ?_, ?_, ?_, ?_⟩
  · intro σ ι ε implStat w name
    rfl
  · intro σ ρ call w
    rfl
  · intro σ ε call w
    rcases hc : call w.fs with ⟨s, e⟩
    constructor <;> simp [Filer.mutateWith, specVerbatim, hc]
  · intro φ π ε implRead h p
    rcases hr : implRead h.f p with ⟨f2, r⟩
    refine ⟨?_, ?_, ?_⟩ <;> simp [File.Read, File.opWith, specVerbatim, hr]
  · intro φ ρ call h
    rcases hc : call h.f with ⟨f2, r⟩
    simp [File.opWith, specVerbatim, hc]
  · intro σ φ ε call w
    rcases hc : call w.fs with ⟨s, file, err⟩
    cases err <;>
      simp [FileSystem.openWith, wrapFile, specOpenFidelity, hc]

/-- Claim C5: if the delegated call of an open-type method fails, no File
handle wrapper is constructed (the handle is none) and the error returned
is exactly the error of the wrapped implementation; stated for the
open-type body of all three wrapper types. -/
theorem c5_open_failure_no_handle :
    ∀ (σ φ ε : Type) (call : σ → σ × φ × Option ε) (e : ε),
      (∀ w : Filer σ, (call w.fs).2.2 = some e →
        (Filer.openWith call w).2 = ((none : Option (File φ)), some e)) ∧
      (∀ w : FileSystem σ, (call w.fs).2.2 = some e →
        (FileSystem.openWith call w).2 = ((none : Option (File φ)), some e)) ∧
      (∀ w : SymlinkFileSystem σ, (call w.sfs).2.2 = some e →
        (SymlinkFileSystem.openWith call w).2 =
          ((none : Option (File φ)), some e)) := by
  intro σ φ ε call e
  refine ⟨?_, ?_, ?_⟩
  · intro w he
    rcases hc : call w.fs with ⟨s, file, err⟩
    rw [hc] at he
    simp only at he
    subst he
    simp [Filer.openWith, wrapFile, hc]
  · intro w he
    rcases hc : call w.fs with ⟨s, file, err⟩
    rw [hc] at he
    simp only at he
    subst he
    simp [FileSystem.openWith, wrapFile, hc]
  · intro w he
    rcases hc : call w.sfs with ⟨s, file, err⟩
    rw [hc] at he
    simp only at he
    subst he
    simp [SymlinkFileSystem.openWith, wrapFile, hc]

/-- Claim C5, witness: a concrete always-failing delegated call through
each of the three wrapper types returns no handle and the delegated
error. -/
theorem c5_open_failure_no_handle_witness :
    (Filer.openWith (fun s : Unit => (s, (), some 7)) ⟨0, (), 0⟩).2 =
      ((none : Option (File Unit)), some 7) ∧
    (FileSystem.openWith (fun s : Unit => (s, (), some 7)) ⟨0, (), 0⟩).2 =
      ((none : Option (File Unit)), some 7) ∧
    (SymlinkFileSystem.openWith (fun s : Unit => (s, (), some 7)) ⟨0, (), 0⟩).2 =
      ((none : Option (File Unit)), some 7) :=
  ⟨(c5_open_failure_no_handle Unit Unit Nat (fun s => (s, (), some 7)) 7).1
      ⟨0, (), 0⟩ rfl,
   (c5_open_failure_no_handle Unit Unit Nat (fun s => (s, (), some 7)) 7).2.1
      ⟨0, (), 0⟩ rfl,
   (c5_open_failure_no_handle Unit Unit Nat (fun s => (s, (), some 7)) 7).2.2
      ⟨0, (), 0⟩ rfl⟩

/-- Claim C6: every handle-level method that mutates the cursor or the
underlying content (Read, Write, WriteAt, Seek, Truncate, Sync,
WriteString, Readdir, Readdirnames, ReadDir) has exactly the trace that
acquires the parent filesystem lock in shared mode and the handle's own
lock in exclusive mode, then delegates, then releases both in reverse
order. -/
theorem c6_cursor_mutators_shared_parent_excl_handle :
    ∀ ok, (cursorMutatorOps.all fun op =>
      decide (trace op ok = handleTrace Mode.excl)) = true := by
  decide

/-- Claim C7: every wrapper method, for both delegation outcomes,
releases every lock it acquired before returning (the trace run from an
empty held-lock stack ends with an empty stack), so no lock leaks on any
exit path, success or failure. -/
theorem c7_all_locks_released :
    ∀ (op : Op) (ok : Bool), balanced (trace op ok) := by
  decide

/-- Claim C8: two successful open-type calls in sequence on the same
FileSystem wrapper produce handles with distinct per-handle mutex
identities — each wrapFile construction allocates a fresh handle lock —
whatever the two delegated calls are (the same path included). -/
theorem c8_handles_fresh_locks :
    ∀ (σ φ ε : Type) (c1 c2 : σ → σ × φ × Option ε) (w : FileSystem σ)
      (f1 f2 : File φ),
      (FileSystem.openWith c1 w).2.1 = some f1 →
      (FileSystem.openWith c2 (FileSystem.openWith c1 w).1).2.1 = some f2 →
      f1.lockId ≠ f2.lockId := by
  intro σ φ ε c1 c2 w f1 f2 h1 h2
  rcases hc1 : c1 w.fs with ⟨s1, file1, err1⟩
  cases err1 with
  | some e =>
      simp [FileSystem.openWith, wrapFile, hc1] at h1
  | none =>
      simp [FileSystem.openWith, wrapFile, hc1] at h1 h2
      rcases hc2 : c2 s1 with ⟨s2, file2, err2⟩
      cases err2 with
      | some e =>
          simp [hc2, wrapFile] at h2
      | none =>
          simp [hc2, wrapFile] at h2
          rw [← h1, ← h2]
          simp

/-- Claim C8, witness: two concrete successful open-type calls on one
wrapper yield handles with per-handle lock identities 0 and 1. -/
theorem c8_handles_fresh_locks_witness :
    (⟨(), 0, 0⟩ : File Unit).lockId ≠ (⟨(), 1, 0⟩ : File Unit).lockId :=
  c8_handles_fresh_locks Unit Unit Nat (fun s => (s, (), none))
    (fun s => (s, (), none)) ⟨0, (), 0⟩ ⟨(), 0, 0⟩ ⟨(), 1, 0⟩ rfl rfl

/-- Claim C9: Sub returns exactly absfs.FilerToFS applied to the
unwrapped inner filesystem instance and dir, for Filer and FileSystem
alike; the result is whatever FilerToFS produces — not a wrapper of this
package — and is identical for two wrappers that share the inner
instance but have different lock identities and allocation state, so it
holds no reference to the wrapper's lock. -/
theorem c9_sub_bypasses_wrapper :
    ∀ (σ β : Type) (filerToFS : σ → String → β) (fs : σ)
      (id1 id2 a1 a2 : Nat) (dir : String),
      Filer.Sub filerToFS ⟨id1, fs, a1⟩ dir = filerToFS fs dir ∧
      FileSystem.Sub filerToFS ⟨id1, fs, a1⟩ dir = filerToFS fs dir ∧
      Filer.Sub filerToFS ⟨id1, fs, a1⟩ dir =
        Filer.Sub filerToFS ⟨id2, fs, a2⟩ dir ∧
      FileSystem.Sub filerToFS ⟨id1, fs, a1⟩ dir =
        FileSystem.Sub filerToFS ⟨id2, fs, a2⟩ dir := by
  intro σ β filerToFS fs id1 id2 a1 a2 dir
  exact ⟨rfl, rfl, rfl, rfl⟩

/-- Claim C10: FileSystem.TempDir and SymlinkFileSystem.TempDir delegate
with a trace containing no lock event at all, and return the wrapped
instance's TempDir verbatim; and across all wrapper methods, the ones
whose delegated call runs while no filesystem-level lock is held are
exactly the two TempDir methods, File.Name and File.Close. -/
theorem c10_tempdir_unlocked_delegation :
    (∀ ok, trace Op.fsTempDir ok = noLockTrace ∧
      trace Op.sfsTempDir ok = noLockTrace) ∧
    (∀ (σ : Type) (implTempDir : σ → String) (w1 : FileSystem σ)
      (w2 : SymlinkFileSystem σ),
      FileSystem.TempDir implTempDir w1 = implTempDir w1.fs ∧
        SymlinkFileSystem.TempDir implTempDir w2 = implTempDir w2.sfs) ∧
    (∀ (op : Op) (ok : Bool),
      (hasDelegate (trace op ok) &&
          delegatesWithoutFsLock [] (trace op ok)) = true ↔
        op ∈ unlockedDelegateOps) := by
  refine ⟨by decide, ?_, by decide⟩
  intro σ implTempDir w1 w2
  exact ⟨rfl, rfl⟩

end Lockfs
